import Mathlib

/-!
Verification of the Smart Home System firmware (src/main/app_main.c).

The firmware consists of a RainMaker write callback (write_cb, routing
inbound (device, parameter) writes) and a periodic IR-sensor task
(ir_sensor_task, a 200 ms polling loop).  Both mutate a small set of
global flags and push values to cloud-visible parameters.

We embed the program shallowly:
  * SysState holds the global flags (alarm_enabled, led_state), the
    task-local state of ir_sensor_task (previous_sensor_state,
    notification_sent), the two output GPIO levels, and the last value
    pushed for each of the four cloud parameters.
  * Each operation returns the new state together with a list of
    observable Event values (parameter pushes, GPIO writes, delays,
    raise_alert calls, log/diagnostic messages), in program order.
  * The body of the ir_sensor_task while-loop is ir_sensor_tick,
    split into the two phases the source labels: door-state handling
    (door_edge, lines 150-174) and alarm behavior (alarm_behavior,
    lines 176-216).
  * write_cb takes the device name, parameter name and boolean payload.
    The Home Light branch body is handleLightPower (lines 102-108) and
    the Alarm System branch body is handleAlarmPower (lines 113-131).
  * The parameter handles door_status_param / alarm_trigger_param are
    modelled as always present (app_main creates them before the task
    and callbacks run, so the NULL guards always pass).
A system run interleaves ticks (with the sensor reading as input) and
writes, starting from the boot state established by app_driver_init
and app_main.
-/

namespace SmartHome

/-- The sensor value is an int in the source: -1 = unknown (boot),
0 = closed, 1 = open. -/
abbrev SensorVal := Int

/-- Global flags, task-local variables of ir_sensor_task, GPIO output
levels, and the current value of each cloud parameter. -/
structure SysState where
  alarm_enabled : Bool
  led_state : Bool
  previous_sensor_state : SensorVal
  notification_sent : Bool
  led_gpio : Bool
  buzzer_gpio : Bool
  door_status_sink : String
  alarm_trigger_sink : Bool
  light_power_sink : Bool
  alarm_power_sink : Bool
deriving DecidableEq, Repr

/-- Observable effects, in program order: esp_rmaker_param_update calls
(push…), gpio_set_level on the outputs, vTaskDelay, raise_alert,
ESP_LOGW and ESP_DIAG_EVENT. -/
inductive Event where
  | pushDoorStatus (v : String)
  | pushAlarmTriggered (v : Bool)
  | pushLightPower (v : Bool)
  | pushAlarmPower (v : Bool)
  | setBuzzer (v : Bool)
  | setLed (v : Bool)
  | raiseAlert (msg : String)
  | delayMs (n : Nat)
  | logWarn (msg : String)
  | diag (tag : String) (msg : String)
deriving DecidableEq, Repr

/-- State after app_driver_init and app_main's parameter creation:
LED off, led_state=false, buzzer off, alarm disabled, Door Status
parameter created with default "CLOSED", Alarm Triggered with false,
both Power parameters with false; ir_sensor_task starts with
previous_sensor_state = -1 and notification_sent = false. -/
def bootState : SysState :=
  { alarm_enabled := false
    led_state := false
    previous_sensor_state := -1
    notification_sent := false
    led_gpio := false
    buzzer_gpio := false
    door_status_sink := "CLOSED"
    alarm_trigger_sink := false
    light_power_sink := false
    alarm_power_sink := false }

/-- app_driver_set_gpio (lines 75-85): if the parameter name is
"Power", set the LED GPIO, record led_state and return ESP_OK (some
new-state); otherwise return ESP_FAIL (none) having changed nothing. -/
def app_driver_set_gpio (s : SysState) (param_name : String) (value : Bool) :
    Option SysState × List Event :=
  if param_name = "Power" then
    (some { s with led_gpio := value, led_state := value },
     [Event.setLed value,
      Event.diag "LIGHT_ACTION" (if value then "Light Power -> ON" else "Light Power -> OFF")])
  else
    (none, [])

/-- Body of the Home Light branch of write_cb (lines 102-108): apply
the GPIO change; on ESP_OK echo the value to the cloud parameter, on
failure log a warning and change nothing. Returns ESP_OK either way. -/
def handleLightPower (s : SysState) (param_name : String) (val : Bool) :
    SysState × List Event × Bool :=
  match app_driver_set_gpio s param_name val with
  | (some s1, ev) => ({ s1 with light_power_sink := val }, ev ++ [Event.pushLightPower val], true)
  | (none, ev) => (s, ev ++ [Event.logWarn "Failed to apply power for Home Light"], true)

/-- Body of the Alarm System branch of write_cb (lines 113-131): set
alarm_enabled; if the new value is false, push Door Status "CLOSED"
and Alarm Triggered false, switch the buzzer off and restore the LED
to led_state; finally echo the written value. Returns ESP_OK. -/
def handleAlarmPower (s : SysState) (val : Bool) : SysState × List Event × Bool :=
  let s1 : SysState := { s with alarm_enabled := val }
  let ev0 : List Event :=
    [Event.diag "ALARM_ACTION" (if val then "Alarm System set to: ON" else "Alarm System set to: OFF")]
  if !val then
    ({ s1 with door_status_sink := "CLOSED", alarm_trigger_sink := false,
               buzzer_gpio := false, led_gpio := s1.led_state, alarm_power_sink := val },
     ev0 ++ [Event.pushDoorStatus "CLOSED", Event.pushAlarmTriggered false,
             Event.setBuzzer false, Event.setLed s1.led_state, Event.pushAlarmPower val],
     true)
  else
    ({ s1 with alarm_power_sink := val },
     ev0 ++ [Event.pushAlarmPower val],
     true)

/-- write_cb (lines 91-135): route on (device name, parameter name);
unrecognized pairs fall through to return ESP_OK with no effect. -/
def write_cb (s : SysState) (dev_name param_name : String) (val : Bool) :
    SysState × List Event × Bool :=
  if dev_name = "Home Light" ∧ param_name = "Power" then
    handleLightPower s param_name val
  else if dev_name = "Alarm System" ∧ param_name = "Power" then
    handleAlarmPower s val
  else
    (s, [], true)

/-- Phase 1 of the tick, door-state handling (lines 150-174): on a
change of the raw reading, push the new Door Status, reset
notification_sent, and on a transition to closed also push Alarm
Triggered false; record the reading in previous_sensor_state. -/
def door_edge (s : SysState) (sensor_value : SensorVal) : SysState × List Event :=
  if sensor_value ≠ s.previous_sensor_state then
    if sensor_value = 1 then
      ({ s with door_status_sink := "OPENED", notification_sent := false,
                previous_sensor_state := sensor_value },
       [Event.diag "DOOR_ACTION" "Door Sensor: OPENED", Event.pushDoorStatus "OPENED"])
    else
      ({ s with door_status_sink := "CLOSED", alarm_trigger_sink := false,
                notification_sent := false, previous_sensor_state := sensor_value },
       [Event.diag "DOOR_ACTION" "Door Sensor: CLOSED", Event.pushDoorStatus "CLOSED",
        Event.pushAlarmTriggered false])
  else
    (s, [])

/-- Phase 2 of the tick, alarm behavior (lines 176-216).  Armed+open:
push Alarm Triggered true, buzzer on, LED inverted for 150 ms then
restored for 150 ms, one raise_alert if notification_sent was false,
and no tail 200 ms delay (the continue).  Armed+closed: buzzer off,
LED restored, tail delay.  Disarmed: full reset, tail delay. -/
def alarm_behavior (s : SysState) (sensor_value : SensorVal) : SysState × List Event :=
  if s.alarm_enabled then
    if sensor_value = 1 then
      let blink : List Event :=
        [Event.pushAlarmTriggered true, Event.setBuzzer true,
         Event.setLed (!s.led_state), Event.delayMs 150,
         Event.setLed s.led_state, Event.delayMs 150]
      let s1 : SysState :=
        { s with alarm_trigger_sink := true, buzzer_gpio := true, led_gpio := s.led_state }
      if !s.notification_sent then
        ({ s1 with notification_sent := true },
         blink ++ [Event.raiseAlert "Door opened while alarm is ON!",
                   Event.diag "SECURITY_ALERT" "Intrusion detected"])
      else
        (s1, blink)
    else
      ({ s with buzzer_gpio := false, led_gpio := s.led_state },
       [Event.setBuzzer false, Event.setLed s.led_state, Event.delayMs 200])
  else
    ({ s with door_status_sink := "CLOSED", alarm_trigger_sink := false,
              buzzer_gpio := false, led_gpio := s.led_state },
     [Event.pushDoorStatus "CLOSED", Event.pushAlarmTriggered false,
      Event.setBuzzer false, Event.setLed s.led_state, Event.delayMs 200])

/-- One iteration of the ir_sensor_task while-loop (lines 147-219),
with the gpio_get_level reading supplied as input (true = 1 = open). -/
def ir_sensor_tick (s : SysState) (sensorOpen : Bool) : SysState × List Event :=
  let sensor_value : SensorVal := if sensorOpen then 1 else 0
  let r1 := door_edge s sensor_value
  let r2 := alarm_behavior r1.1 sensor_value
  (r2.1, r1.2 ++ r2.2)

/-- A system step: either one scheduler tick (with the sensor reading
sampled at its start) or one inbound write delivered to write_cb. -/
inductive Step where
  | tick (sensorOpen : Bool)
  | write (dev_name param_name : String) (val : Bool)
deriving DecidableEq, Repr

/-- Effect of one step on the state, with its event trace. -/
def stepEffect (s : SysState) : Step → SysState × List Event
  | Step.tick b => ir_sensor_tick s b
  | Step.write d p v => ((write_cb s d p v).1, (write_cb s d p v).2.1)

/-- State after running a list of steps. -/
def runState (s : SysState) : List Step → SysState
  | [] => s
  | st :: rest => runState (stepEffect s st).1 rest

/-- Concatenated event trace of a list of steps. -/
def runEvents (s : SysState) : List Step → List Event
  | [] => []
  | st :: rest => (stepEffect s st).2 ++ runEvents (stepEffect s st).1 rest

/-- Number of raise_alert calls in a trace. -/
def countAlert : List Event → Nat
  | [] => 0
  | Event.raiseAlert _ :: rest => countAlert rest + 1
  | _ :: rest => countAlert rest

/-- The armed boot state: bootState after the Alarm System has been
switched on (used to instantiate theorems at a concrete state). -/
def armedBoot : SysState := { bootState with alarm_enabled := true }

/-- Key state invariant maintained by every step: the Alarm Triggered
parameter is true only while the alarm is enabled and the last stored
reading is open (1), and notification_sent is set only while the last
stored reading is open. -/
def Inv (s : SysState) : Prop :=
  (s.alarm_trigger_sink = true → s.alarm_enabled = true ∧ s.previous_sensor_state = 1)
  ∧ (s.notification_sent = true → s.previous_sensor_state = 1)

instance (s : SysState) : Decidable (Inv s) := by
  unfold Inv; infer_instance

theorem inv_boot : Inv bootState := by decide

/-- write_cb never touches the ir_sensor_task-local variables. -/
theorem write_cb_frame (s : SysState) (d p : String) (v : Bool) :
    ((write_cb s d p v).1).notification_sent = s.notification_sent
    ∧ ((write_cb s d p v).1).previous_sensor_state = s.previous_sensor_state := by
  unfold write_cb handleLightPower handleAlarmPower app_driver_set_gpio
  repeat' split <;> simp_all

theorem inv_write (s : SysState) (d p : String) (v : Bool) (h : Inv s) :
    Inv ((write_cb s d p v).1) := by
  obtain ⟨h1, h2⟩ := h
  unfold Inv write_cb handleLightPower handleAlarmPower app_driver_set_gpio
  repeat' split <;> simp_all

theorem inv_tick (s : SysState) (b : Bool) (h : Inv s) : Inv (ir_sensor_tick s b).1 := by
  obtain ⟨h1, h2⟩ := h
  unfold Inv ir_sensor_tick door_edge alarm_behavior
  cases b <;> repeat' split <;> simp_all

theorem inv_step (s : SysState) (st : Step) (h : Inv s) : Inv (stepEffect s st).1 := by
  cases st with
  | tick b => exact inv_tick s b h
  | write d p v => exact inv_write s d p v h

/-- The invariant holds in every state reachable from a state
satisfying it, over any interleaving of ticks and writes. -/
theorem inv_run (s : SysState) (L : List Step) (h : Inv s) : Inv (runState s L) := by
  induction L generalizing s with
  | nil => exact h
  | cons st rest ih =>
      rw [runState]
      exact ih _ (inv_step s st h)

/-- A disarmed tick leaves the buzzer off, the LED at led_state, the
Door Status sink at "CLOSED", the Alarm Triggered sink false, and
records the sensor reading. -/
theorem tick_disarmed_state (s : SysState) (b : Bool) (h : s.alarm_enabled = false) :
    (ir_sensor_tick s b).1.buzzer_gpio = false
    ∧ (ir_sensor_tick s b).1.led_gpio = s.led_state
    ∧ (ir_sensor_tick s b).1.led_state = s.led_state
    ∧ (ir_sensor_tick s b).1.door_status_sink = "CLOSED"
    ∧ (ir_sensor_tick s b).1.alarm_trigger_sink = false
    ∧ (ir_sensor_tick s b).1.alarm_enabled = false
    ∧ (ir_sensor_tick s b).1.previous_sensor_state = (if b then 1 else 0) := by
  unfold ir_sensor_tick door_edge alarm_behavior
  cases b <;> repeat' split <;> simp_all

/-- A disarmed tick always pushes Door Status "CLOSED" and Alarm
Triggered false. -/
theorem tick_disarmed_mem (s : SysState) (b : Bool) (h : s.alarm_enabled = false) :
    Event.pushDoorStatus "CLOSED" ∈ (ir_sensor_tick s b).2
    ∧ Event.pushAlarmTriggered false ∈ (ir_sensor_tick s b).2 := by
  unfold ir_sensor_tick door_edge alarm_behavior
  cases b <;> repeat' split <;> simp_all

/-- On a disarmed state already matching the reset (sensor recorded,
sinks at CLOSED/false, buzzer off, LED at led_state) a tick is the
identity on the state and re-pushes the unchanged values. -/
theorem tick_settled_eq (s : SysState) (b : Bool)
    (ha : s.alarm_enabled = false)
    (hp : s.previous_sensor_state = (if b then 1 else 0))
    (hd : s.door_status_sink = "CLOSED")
    (ht : s.alarm_trigger_sink = false)
    (hb : s.buzzer_gpio = false)
    (hl : s.led_gpio = s.led_state) :
    ir_sensor_tick s b =
      (s, [Event.pushDoorStatus "CLOSED", Event.pushAlarmTriggered false,
           Event.setBuzzer false, Event.setLed s.led_state, Event.delayMs 200]) := by
  cases s
  unfold ir_sensor_tick door_edge alarm_behavior
  cases b <;> simp_all

theorem countAlert_append (a b : List Event) :
    countAlert (a ++ b) = countAlert a + countAlert b := by
  induction a with
  | nil => simp [countAlert]
  | cons e rest ih => cases e <;> simp [countAlert, ih, Nat.add_right_comm]

/-- write_cb never calls raise_alert. -/
theorem write_cb_no_alert (s : SysState) (d p : String) (v : Bool) :
    countAlert (write_cb s d p v).2.1 = 0 := by
  by_cases h1 : d = "Home Light" ∧ p = "Power"
  · obtain ⟨hd, hp⟩ := h1
    subst hd; subst hp
    cases v <;>
      simp [write_cb, handleLightPower, app_driver_set_gpio, countAlert, countAlert_append]
  · by_cases h2 : d = "Alarm System" ∧ p = "Power"
    · obtain ⟨hd, hp⟩ := h2
      subst hd; subst hp
      cases v <;>
        simp [write_cb, handleAlarmPower, countAlert, countAlert_append, h1]
    · simp [write_cb, h1, h2, countAlert]

/-- write_cb never pushes Door Status "OPENED". -/
theorem write_cb_no_open (s : SysState) (d p : String) (v : Bool) :
    Event.pushDoorStatus "OPENED" ∉ (write_cb s d p v).2.1 := by
  by_cases h1 : d = "Home Light" ∧ p = "Power"
  · obtain ⟨hd, hp⟩ := h1
    subst hd; subst hp
    cases v <;>
      simp [write_cb, handleLightPower, app_driver_set_gpio]
  · by_cases h2 : d = "Alarm System" ∧ p = "Power"
    · obtain ⟨hd, hp⟩ := h2
      subst hd; subst hp
      cases v <;>
        simp [write_cb, handleAlarmPower, h1]
    · simp [write_cb, h1, h2]

/-- One open tick consumes the one-alert budget: alerts fired plus the
budget remaining (1 when notification_sent is still false) never
exceed the budget before the tick. -/
theorem tick_true_budget (s : SysState)
    (hP : s.notification_sent = true → s.previous_sensor_state = 1) :
    countAlert (ir_sensor_tick s true).2
      + (if (ir_sensor_tick s true).1.notification_sent then 0 else 1)
      ≤ (if s.notification_sent then 0 else 1)
    ∧ ((ir_sensor_tick s true).1.notification_sent = true →
        (ir_sensor_tick s true).1.previous_sensor_state = 1) := by
  by_cases hp : s.previous_sensor_state = 1
  · cases hn : s.notification_sent <;> cases ha : s.alarm_enabled <;>
      simp_all [ir_sensor_tick, door_edge, alarm_behavior, countAlert, countAlert_append]
  · have hn : s.notification_sent = false := by
      cases hnb : s.notification_sent
      · rfl
      · exact absurd (hP hnb) hp
    have hp2 : ¬ (1 : SensorVal) = s.previous_sensor_state := fun hh => hp hh.symm
    cases ha : s.alarm_enabled <;>
      simp_all [ir_sensor_tick, door_edge, alarm_behavior, countAlert, countAlert_append, hp2]

/-- Over any step sequence whose ticks all read the sensor open, at
most the remaining alert budget is spent. -/
theorem alert_budget_run (L : List Step) : ∀ s : SysState,
    (s.notification_sent = true → s.previous_sensor_state = 1) →
    Step.tick false ∉ L →
    countAlert (runEvents s L) ≤ (if s.notification_sent then 0 else 1) := by
  induction L with
  | nil => intro s _ _; simp [runEvents, countAlert]
  | cons st rest ih =>
      intro s hP hL
      have hLrest : Step.tick false ∉ rest := fun hh => hL (List.mem_cons_of_mem _ hh)
      rw [runEvents, countAlert_append]
      cases st with
      | write d p v =>
          have hstep : stepEffect s (Step.write d p v)
              = ((write_cb s d p v).1, (write_cb s d p v).2.1) := rfl
          rw [hstep]
          have h0 : countAlert (write_cb s d p v).2.1 = 0 := write_cb_no_alert s d p v
          have hfr := write_cb_frame s d p v
          have hrec := ih (write_cb s d p v).1
            (by
              intro hh
              rw [hfr.2]
              apply hP
              rw [← hfr.1]
              exact hh)
            hLrest
          rw [h0]
          simp only [Nat.zero_add]
          calc countAlert (runEvents (write_cb s d p v).1 rest)
              ≤ (if (write_cb s d p v).1.notification_sent then 0 else 1) := hrec
            _ = (if s.notification_sent then 0 else 1) := by rw [hfr.1]
      | tick b =>
          have hb : b = true := by
            cases b
            · exact absurd (List.mem_cons_self _ _) hL
            · rfl
          subst hb
          obtain ⟨hbud, hPnext⟩ := tick_true_budget s hP
          have hstep : stepEffect s (Step.tick true) = ir_sensor_tick s true := rfl
          rw [hstep]
          have hrec := ih (ir_sensor_tick s true).1 hPnext hLrest
          calc countAlert (ir_sensor_tick s true).2
                + countAlert (runEvents (ir_sensor_tick s true).1 rest)
              ≤ countAlert (ir_sensor_tick s true).2
                + (if (ir_sensor_tick s true).1.notification_sent then 0 else 1) :=
                Nat.add_le_add_left hrec _
            _ ≤ (if s.notification_sent then 0 else 1) := hbud

/-- An open tick from a state with the door already recorded open and
the notification latch set changes neither, fires no alert, and pushes
no Door Status "OPENED". -/
theorem tick_open_steady (s : SysState)
    (h1 : s.previous_sensor_state = 1) (h2 : s.notification_sent = true) :
    (ir_sensor_tick s true).1.previous_sensor_state = 1
    ∧ (ir_sensor_tick s true).1.notification_sent = true
    ∧ countAlert (ir_sensor_tick s true).2 = 0
    ∧ Event.pushDoorStatus "OPENED" ∉ (ir_sensor_tick s true).2 := by
  cases ha : s.alarm_enabled <;>
    simp_all [ir_sensor_tick, door_edge, alarm_behavior, countAlert]

/-- From a state with the door recorded open and the notification
latch set, any interleaving of writes and open ticks fires no alert
and pushes no Door Status "OPENED". -/
theorem open_notif_no_events (L : List Step) : ∀ s : SysState,
    s.previous_sensor_state = 1 → s.notification_sent = true →
    Step.tick false ∉ L →
    countAlert (runEvents s L) = 0
    ∧ Event.pushDoorStatus "OPENED" ∉ runEvents s L := by
  induction L with
  | nil => intro s _ _ _; simp [runEvents, countAlert]
  | cons st rest ih =>
      intro s h1 h2 hL
      have hLrest : Step.tick false ∉ rest := fun hh => hL (List.mem_cons_of_mem _ hh)
      rw [runEvents, countAlert_append]
      cases st with
      | write d p v =>
          have hstep : stepEffect s (Step.write d p v)
              = ((write_cb s d p v).1, (write_cb s d p v).2.1) := rfl
          rw [hstep]
          have hfr := write_cb_frame s d p v
          obtain ⟨ihc, ihm⟩ := ih (write_cb s d p v).1
            (by rw [hfr.2]; exact h1) (by rw [hfr.1]; exact h2) hLrest
          refine ⟨?_, ?_⟩
          · rw [write_cb_no_alert s d p v, ihc]
          · intro hmem
            rcases List.mem_append.mp hmem with hm | hm
            · exact write_cb_no_open s d p v hm
            · exact ihm hm
      | tick b =>
          have hb : b = true := by
            cases b
            · exact absurd (List.mem_cons_self _ _) hL
            · rfl
          subst hb
          have hstep : stepEffect s (Step.tick true) = ir_sensor_tick s true := rfl
          rw [hstep]
          obtain ⟨t1, t2, t3, t4⟩ := tick_open_steady s h1 h2
          obtain ⟨ihc, ihm⟩ := ih (ir_sensor_tick s true).1 t1 t2 hLrest
          refine ⟨?_, ?_⟩
          · rw [t3, ihc]
          · intro hmem
            rcases List.mem_append.mp hmem with hm | hm
            · exact t4 hm
            · exact ihm hm

/-- A tick reading the sensor closed leaves, on any state satisfying
the invariant, both the Alarm Triggered sink and the notification
latch false. -/
theorem tick_false_clears (s : SysState) (h : Inv s) :
    (ir_sensor_tick s false).1.alarm_trigger_sink = false
    ∧ (ir_sensor_tick s false).1.notification_sent = false := by
  obtain ⟨h1, h2⟩ := h
  by_cases hp : s.previous_sensor_state = 0
  · cases ha : s.alarm_enabled <;>
      simp_all [ir_sensor_tick, door_edge, alarm_behavior]
  · have hp2 : ¬ (0 : SensorVal) = s.previous_sensor_state := fun hh => hp hh.symm
    cases ha : s.alarm_enabled <;>
      simp_all [ir_sensor_tick, door_edge, alarm_behavior, hp2]

/-- The disarm branch of write_cb always leaves the Alarm Triggered
sink false. -/
theorem disarm_clears_alert (s : SysState) :
    (handleAlarmPower s false).1.alarm_trigger_sink = false := by
  simp [handleAlarmPower]

/-- C1: for every sequence of scheduler ticks and router writes from
boot, whenever the Alarm Triggered (AlertActive) parameter value is
true, the alarm is armed and the recorded door state is OPEN (sensor
value 1); the invariant holds at every step boundary. -/
theorem alarm_triggered_implies_armed_open (L : List Step)
    (h : (runState bootState L).alarm_trigger_sink = true) :
    (runState bootState L).alarm_enabled = true
    ∧ (runState bootState L).previous_sensor_state = 1 :=
  (inv_run bootState L inv_boot).1 h

theorem alarm_triggered_implies_armed_open_witness :
    (runState bootState [Step.write "Alarm System" "Power" true, Step.tick true]).alarm_trigger_sink
      = true
    ∧ ((runState bootState [Step.write "Alarm System" "Power" true, Step.tick true]).alarm_enabled
        = true
      ∧ (runState bootState
          [Step.write "Alarm System" "Power" true, Step.tick true]).previous_sensor_state = 1) :=
  ⟨by decide,
   alarm_triggered_implies_armed_open
     [Step.write "Alarm System" "Power" true, Step.tick true] (by decide)⟩

/-- C2: on every tick where the alarm is armed and the sensor reads
open, the machine pushes Alarm Triggered true, turns the buzzer on,
drives the LED to the inverse of led_state for 150 ms then back to
led_state for 150 ms, raises exactly one alert when notification_sent
was false (setting it true), and emits no tail 200 ms delay.  The
second hypothesis is the reachable-state invariant (inv_run) relating
the latch to the recorded door state. -/
theorem armed_open_tick_behavior (s : SysState)
    (harm : s.alarm_enabled = true)
    (hinv : s.notification_sent = true → s.previous_sensor_state = 1) :
    (ir_sensor_tick s true).1.alarm_trigger_sink = true
    ∧ (ir_sensor_tick s true).1.buzzer_gpio = true
    ∧ (ir_sensor_tick s true).1.led_gpio = s.led_state
    ∧ (ir_sensor_tick s true).1.notification_sent = true
    ∧ Event.pushAlarmTriggered true ∈ (ir_sensor_tick s true).2
    ∧ List.IsInfix
        [Event.setBuzzer true, Event.setLed (!s.led_state), Event.delayMs 150,
         Event.setLed s.led_state, Event.delayMs 150] (ir_sensor_tick s true).2
    ∧ countAlert (ir_sensor_tick s true).2 = (if s.notification_sent then 0 else 1)
    ∧ Event.delayMs 200 ∉ (ir_sensor_tick s true).2 := by
  by_cases hp : s.previous_sensor_state = 1
  · cases hn : s.notification_sent
    · refine ⟨?_, ?_, ?_, ?_, ?_,
        ⟨[Event.pushAlarmTriggered true],
         [Event.raiseAlert "Door opened while alarm is ON!",
          Event.diag "SECURITY_ALERT" "Intrusion detected"], ?_⟩, ?_, ?_⟩ <;>
        simp_all [ir_sensor_tick, door_edge, alarm_behavior, countAlert]
    · refine ⟨?_, ?_, ?_, ?_, ?_,
        ⟨[Event.pushAlarmTriggered true], [], ?_⟩, ?_, ?_⟩ <;>
        simp_all [ir_sensor_tick, door_edge, alarm_behavior, countAlert]
  · have hn : s.notification_sent = false := by
      cases hnb : s.notification_sent
      · rfl
      · exact absurd (hinv hnb) hp
    have hp2 : ¬ (1 : SensorVal) = s.previous_sensor_state := fun hh => hp hh.symm
    refine ⟨?_, ?_, ?_, ?_, ?_,
      ⟨[Event.diag "DOOR_ACTION" "Door Sensor: OPENED", Event.pushDoorStatus "OPENED",
        Event.pushAlarmTriggered true],
       [Event.raiseAlert "Door opened while alarm is ON!",
        Event.diag "SECURITY_ALERT" "Intrusion detected"], ?_⟩, ?_, ?_⟩ <;>
      simp_all [ir_sensor_tick, door_edge, alarm_behavior, countAlert, hp2]

theorem armed_open_tick_behavior_witness :
    armedBoot.alarm_enabled = true
    ∧ ((ir_sensor_tick armedBoot true).1.alarm_trigger_sink = true
      ∧ (ir_sensor_tick armedBoot true).1.buzzer_gpio = true
      ∧ (ir_sensor_tick armedBoot true).1.led_gpio = armedBoot.led_state
      ∧ (ir_sensor_tick armedBoot true).1.notification_sent = true
      ∧ Event.pushAlarmTriggered true ∈ (ir_sensor_tick armedBoot true).2
      ∧ List.IsInfix
          [Event.setBuzzer true, Event.setLed (!armedBoot.led_state), Event.delayMs 150,
           Event.setLed armedBoot.led_state, Event.delayMs 150] (ir_sensor_tick armedBoot true).2
      ∧ countAlert (ir_sensor_tick armedBoot true).2
          = (if armedBoot.notification_sent then 0 else 1)
      ∧ Event.delayMs 200 ∉ (ir_sensor_tick armedBoot true).2) :=
  ⟨rfl, armed_open_tick_behavior armedBoot rfl (by decide)⟩

/-- C3 counterexample: arm, one open tick (which raises the alert and
latches notification_sent), then a disarm write.  In the resulting
state notification_sent is still true although the alarm is no longer
armed, so NotificationSent is not forced false by disarming and the
claimed invariant is false. -/
theorem notification_survives_disarm_cex :
    (runState bootState [Step.write "Alarm System" "Power" true, Step.tick true,
        Step.write "Alarm System" "Power" false]).notification_sent = true
    ∧ (runState bootState [Step.write "Alarm System" "Power" true, Step.tick true,
        Step.write "Alarm System" "Power" false]).alarm_enabled = false := by
  decide

/-- C3 (amended): AlertActive is only ever true while the alarm is
armed and the recorded door state is OPEN, and it is forced false the
instant either fails (closed tick, or disarm write); NotificationSent
is only ever true while the recorded door state is OPEN and is cleared
by a closed tick, but it is NOT cleared by disarming and can remain
true while the alarm is disarmed. -/
theorem alert_notification_invariant_amended (L : List Step) :
    ((runState bootState L).alarm_trigger_sink = true →
      (runState bootState L).alarm_enabled = true
      ∧ (runState bootState L).previous_sensor_state = 1)
    ∧ ((runState bootState L).notification_sent = true →
      (runState bootState L).previous_sensor_state = 1)
    ∧ (handleAlarmPower (runState bootState L) false).1.alarm_trigger_sink = false
    ∧ (ir_sensor_tick (runState bootState L) false).1.alarm_trigger_sink = false
    ∧ (ir_sensor_tick (runState bootState L) false).1.notification_sent = false := by
  have hInv := inv_run bootState L inv_boot
  obtain ⟨hc1, hc2⟩ := tick_false_clears (runState bootState L) hInv
  exact ⟨hInv.1, hInv.2, disarm_clears_alert _, hc1, hc2⟩

theorem alert_notification_invariant_amended_witness :
    (runState bootState [Step.write "Alarm System" "Power" true, Step.tick true]).alarm_trigger_sink
      = true
    ∧ ((runState bootState [Step.write "Alarm System" "Power" true, Step.tick true]).alarm_enabled
        = true
      ∧ (runState bootState
          [Step.write "Alarm System" "Power" true, Step.tick true]).previous_sensor_state = 1)
    ∧ (ir_sensor_tick (runState bootState [Step.write "Alarm System" "Power" true, Step.tick true])
        false).1.notification_sent = false :=
  ⟨by decide,
   (alert_notification_invariant_amended
      [Step.write "Alarm System" "Power" true, Step.tick true]).1 (by decide),
   (alert_notification_invariant_amended
      [Step.write "Alarm System" "Power" true, Step.tick true]).2.2.2.2⟩

/-- C4: notification_sent is reset to false by the edge detector on
every door-state transition (in either direction, including from the
boot value -1), and over any step sequence whose ticks all read the
sensor open (one contiguous OPEN episode, writes interleaved
arbitrarily) at most one raise_alert call occurs, provided the state
entering the episode satisfies the reachable-state relation between
the latch and the recorded door state. -/
theorem notif_edge_reset_and_single_alert :
    (∀ (s : SysState) (sv : SensorVal), sv ≠ s.previous_sensor_state →
        (door_edge s sv).1.notification_sent = false)
    ∧ (∀ (s : SysState) (L : List Step),
        (s.notification_sent = true → s.previous_sensor_state = 1) →
        Step.tick false ∉ L →
        countAlert (runEvents s L) ≤ 1) := by
  constructor
  · intro s sv h
    unfold door_edge
    rw [if_pos h]
    split <;> rfl
  · intro s L hP hL
    calc countAlert (runEvents s L)
        ≤ (if s.notification_sent then 0 else 1) := alert_budget_run L s hP hL
      _ ≤ 1 := by split <;> simp

theorem notif_edge_reset_and_single_alert_witness :
    ((0 : SensorVal) ≠ bootState.previous_sensor_state
      ∧ (door_edge bootState 0).1.notification_sent = false)
    ∧ ((armedBoot.notification_sent = true → armedBoot.previous_sensor_state = 1)
      ∧ Step.tick false ∉ [Step.tick true, Step.tick true, Step.tick true, Step.tick true]
      ∧ countAlert (runEvents armedBoot
          [Step.tick true, Step.tick true, Step.tick true, Step.tick true]) ≤ 1) :=
  ⟨⟨by decide, notif_edge_reset_and_single_alert.1 bootState 0 (by decide)⟩,
   ⟨by decide, by decide,
    notif_edge_reset_and_single_alert.2 armedBoot
      [Step.tick true, Step.tick true, Step.tick true, Step.tick true]
      (by decide) (by decide)⟩⟩

/-- C5: an (Alarm System, Power) write taking the armed alarm to false
synchronously (within write_cb itself) pushes Door Status "CLOSED" and
Alarm Triggered false, turns the buzzer off, restores the LED to
led_state and then echoes the written value — for every state, hence
regardless of the current sensor reading. -/
theorem disarm_write_synchronous_reset (s : SysState) (_h : s.alarm_enabled = true) :
    (write_cb s "Alarm System" "Power" false).1 =
      { s with alarm_enabled := false, door_status_sink := "CLOSED", alarm_trigger_sink := false,
               buzzer_gpio := false, led_gpio := s.led_state, alarm_power_sink := false }
    ∧ (write_cb s "Alarm System" "Power" false).2.1 =
      [Event.diag "ALARM_ACTION" "Alarm System set to: OFF",
       Event.pushDoorStatus "CLOSED", Event.pushAlarmTriggered false,
       Event.setBuzzer false, Event.setLed s.led_state, Event.pushAlarmPower false] := by
  unfold write_cb handleAlarmPower
  simp

theorem disarm_write_synchronous_reset_witness :
    armedBoot.alarm_enabled = true
    ∧ ((write_cb armedBoot "Alarm System" "Power" false).1 =
        { armedBoot with alarm_enabled := false, door_status_sink := "CLOSED",
                         alarm_trigger_sink := false, buzzer_gpio := false,
                         led_gpio := armedBoot.led_state, alarm_power_sink := false }
      ∧ (write_cb armedBoot "Alarm System" "Power" false).2.1 =
        [Event.diag "ALARM_ACTION" "Alarm System set to: OFF",
         Event.pushDoorStatus "CLOSED", Event.pushAlarmTriggered false,
         Event.setBuzzer false, Event.setLed armedBoot.led_state,
         Event.pushAlarmPower false]) :=
  ⟨rfl, disarm_write_synchronous_reset armedBoot rfl⟩

/-- C6: on every tick whose raw reading differs from the stored
previous door state (including the boot value -1), the edge detector
updates the stored state, pushes the new Door Status value, and resets
notification_sent; on a transition to closed it additionally clears
the Alarm Triggered sink and pushes false. -/
theorem door_edge_transition (s : SysState) (b : Bool)
    (h : (if b then (1 : Int) else 0) ≠ s.previous_sensor_state) :
    (door_edge s (if b then 1 else 0)).1.previous_sensor_state = (if b then 1 else 0)
    ∧ (door_edge s (if b then 1 else 0)).1.notification_sent = false
    ∧ (door_edge s (if b then 1 else 0)).1.door_status_sink = (if b then "OPENED" else "CLOSED")
    ∧ Event.pushDoorStatus (if b then "OPENED" else "CLOSED") ∈ (ir_sensor_tick s b).2
    ∧ (b = false → (door_edge s (if b then (1 : Int) else 0)).1.alarm_trigger_sink = false
        ∧ Event.pushAlarmTriggered false ∈ (ir_sensor_tick s b).2) := by
  cases b <;> unfold ir_sensor_tick door_edge <;> simp_all

theorem door_edge_transition_witness :
    (if false then (1 : Int) else 0) ≠ bootState.previous_sensor_state
    ∧ ((door_edge bootState (if false then 1 else 0)).1.previous_sensor_state
        = (if false then 1 else 0)
      ∧ (door_edge bootState (if false then 1 else 0)).1.notification_sent = false
      ∧ (door_edge bootState (if false then 1 else 0)).1.door_status_sink
          = (if false then "OPENED" else "CLOSED")
      ∧ Event.pushDoorStatus (if false then "OPENED" else "CLOSED")
          ∈ (ir_sensor_tick bootState false).2
      ∧ (false = false →
          (door_edge bootState (if false then (1 : Int) else 0)).1.alarm_trigger_sink = false
          ∧ Event.pushAlarmTriggered false ∈ (ir_sensor_tick bootState false).2)) :=
  ⟨by decide, door_edge_transition bootState false (by decide)⟩

/-- C7: on every tick while the alarm is disarmed, regardless of the
sensor reading, the machine pushes Door Status "CLOSED" and Alarm
Triggered false, switches the buzzer off and sets the LED to
led_state; running the disarmed tick a second time with the same
reading changes nothing and merely re-pushes the unchanged values. -/
theorem disarmed_tick_full_reset (s : SysState) (b : Bool) (h : s.alarm_enabled = false) :
    Event.pushDoorStatus "CLOSED" ∈ (ir_sensor_tick s b).2
    ∧ Event.pushAlarmTriggered false ∈ (ir_sensor_tick s b).2
    ∧ (ir_sensor_tick s b).1.buzzer_gpio = false
    ∧ (ir_sensor_tick s b).1.led_gpio = s.led_state
    ∧ (ir_sensor_tick s b).1.door_status_sink = "CLOSED"
    ∧ (ir_sensor_tick s b).1.alarm_trigger_sink = false
    ∧ ir_sensor_tick (ir_sensor_tick s b).1 b =
        ((ir_sensor_tick s b).1,
         [Event.pushDoorStatus "CLOSED", Event.pushAlarmTriggered false,
          Event.setBuzzer false, Event.setLed s.led_state, Event.delayMs 200]) := by
  obtain ⟨h1, h2, h3, h4, h5, h6, h7⟩ := tick_disarmed_state s b h
  obtain ⟨m1, m2⟩ := tick_disarmed_mem s b h
  refine ⟨m1, m2, h1, h2, h4, h5, ?_⟩
  have he := tick_settled_eq (ir_sensor_tick s b).1 b h6 h7 h4 h5 h1 (by rw [h2, h3])
  rw [he, h3]

theorem disarmed_tick_full_reset_witness :
    bootState.alarm_enabled = false
    ∧ (Event.pushDoorStatus "CLOSED" ∈ (ir_sensor_tick bootState true).2
      ∧ Event.pushAlarmTriggered false ∈ (ir_sensor_tick bootState true).2
      ∧ (ir_sensor_tick bootState true).1.buzzer_gpio = false
      ∧ (ir_sensor_tick bootState true).1.led_gpio = bootState.led_state
      ∧ (ir_sensor_tick bootState true).1.door_status_sink = "CLOSED"
      ∧ (ir_sensor_tick bootState true).1.alarm_trigger_sink = false
      ∧ ir_sensor_tick (ir_sensor_tick bootState true).1 true =
          ((ir_sensor_tick bootState true).1,
           [Event.pushDoorStatus "CLOSED", Event.pushAlarmTriggered false,
            Event.setBuzzer false, Event.setLed bootState.led_state, Event.delayMs 200])) :=
  ⟨rfl, disarmed_tick_full_reset bootState true rfl⟩

/-- C8: whenever the driver apply (app_driver_set_gpio) fails — it
returns ESP_FAIL exactly when the parameter name is not "Power" — the
Home Light branch of write_cb does not echo the value to the sink,
reports the failure with a log warning, leaves the state (led_state,
LED GPIO and the prior sink value) unchanged, and still returns
ESP_OK. -/
theorem light_write_gpio_fail_no_echo (s : SysState) (pn : String) (v : Bool)
    (h : (app_driver_set_gpio s pn v).1 = none) :
    handleLightPower s pn v = (s, [Event.logWarn "Failed to apply power for Home Light"], true) := by
  unfold handleLightPower
  unfold app_driver_set_gpio at h ⊢
  split at h <;> simp_all

theorem light_write_gpio_fail_no_echo_witness :
    (app_driver_set_gpio bootState "Brightness" true).1 = none
    ∧ handleLightPower bootState "Brightness" true =
        (bootState, [Event.logWarn "Failed to apply power for Home Light"], true) :=
  ⟨by decide, light_write_gpio_fail_no_echo bootState "Brightness" true (by decide)⟩

/-- C9: every inbound write whose (device, parameter) pair is neither
(Home Light, Power) nor (Alarm System, Power) leaves the state
unchanged, pushes nothing, and still returns ESP_OK. -/
theorem unrecognized_write_noop (s : SysState) (d p : String) (v : Bool)
    (h1 : ¬(d = "Home Light" ∧ p = "Power"))
    (h2 : ¬(d = "Alarm System" ∧ p = "Power")) :
    write_cb s d p v = (s, [], true) := by
  unfold write_cb
  rw [if_neg h1, if_neg h2]

theorem unrecognized_write_noop_witness :
    ¬("Door Sensor Status" = "Home Light" ∧ "Door Status" = "Power")
    ∧ ¬("Door Sensor Status" = "Alarm System" ∧ "Door Status" = "Power")
    ∧ write_cb bootState "Door Sensor Status" "Door Status" true = (bootState, [], true) :=
  ⟨by decide, by decide,
   unrecognized_write_noop bootState "Door Sensor Status" "Door Status" true
     (by decide) (by decide)⟩

/-- C10: neither the router's disarm reset nor the tick's alarm-phase
(including the disarmed reset) modifies the stored previous door
state; consequently, from a state with the door recorded open and the
notification latch set, any interleaving of writes (disarm, re-arm,
light) and ticks that keep reading the sensor open produces no new
Door Status "OPENED" push and no new raise_alert call. -/
theorem resets_preserve_prev_no_reopen :
    (∀ (s : SysState) (v : Bool),
        (handleAlarmPower s v).1.previous_sensor_state = s.previous_sensor_state)
    ∧ (∀ (s : SysState) (sv : SensorVal),
        (alarm_behavior s sv).1.previous_sensor_state = s.previous_sensor_state)
    ∧ (∀ (s : SysState) (L : List Step),
        s.previous_sensor_state = 1 → s.notification_sent = true →
        Step.tick false ∉ L →
        countAlert (runEvents s L) = 0
        ∧ Event.pushDoorStatus "OPENED" ∉ runEvents s L) := by
  refine ⟨?_, ?_, ?_⟩
  · intro s v
    cases v <;> simp [handleAlarmPower]
  · intro s sv
    unfold alarm_behavior
    repeat' split
    all_goals rfl
  · intro s L h1 h2 hL
    exact open_notif_no_events L s h1 h2 hL

theorem resets_preserve_prev_no_reopen_witness :
    (handleAlarmPower bootState true).1.previous_sensor_state = bootState.previous_sensor_state
    ∧ (alarm_behavior bootState 0).1.previous_sensor_state = bootState.previous_sensor_state
    ∧ ((runState bootState [Step.write "Alarm System" "Power" true,
          Step.tick true]).previous_sensor_state = 1
      ∧ (runState bootState [Step.write "Alarm System" "Power" true,
          Step.tick true]).notification_sent = true
      ∧ Step.tick false ∉ [Step.write "Alarm System" "Power" false, Step.tick true,
          Step.write "Alarm System" "Power" true, Step.tick true])
    ∧ (countAlert (runEvents
          (runState bootState [Step.write "Alarm System" "Power" true, Step.tick true])
          [Step.write "Alarm System" "Power" false, Step.tick true,
           Step.write "Alarm System" "Power" true, Step.tick true]) = 0
      ∧ Event.pushDoorStatus "OPENED" ∉ runEvents
          (runState bootState [Step.write "Alarm System" "Power" true, Step.tick true])
          [Step.write "Alarm System" "Power" false, Step.tick true,
           Step.write "Alarm System" "Power" true, Step.tick true]) :=
  ⟨resets_preserve_prev_no_reopen.1 bootState true,
   resets_preserve_prev_no_reopen.2.1 bootState 0,
   ⟨by decide, by decide, by decide⟩,
   resets_preserve_prev_no_reopen.2.2
     (runState bootState [Step.write "Alarm System" "Power" true, Step.tick true])
     [Step.write "Alarm System" "Power" false, Step.tick true,
      Step.write "Alarm System" "Power" true, Step.tick true]
     (by decide) (by decide) (by decide)⟩

end SmartHome
